import Mathlib

/-!
Verification of the `dapy` Lorenz 63 forecast model (`src/dapy/models/lorenz63.py`)
against its natural-language specification.

State vectors are 3-dimensional real vectors; we embed them over `ℚ` so that all
definitions are executable and all predicates decidable.  The model wrapper
(`Lorenz63Model.__init__`, `observation_func` probing, parameter storage) is
translated directly from the source.  The integrator (`Lorenz63Integrator`) and
the base class (`DiagonalGaussianIntegratorModel`) are part of this repository
but their source files are not available here; those parts are modelled from the
spec (sections 4.1, 4.2) and are marked `Modelled from the spec:` below.
-/

namespace Dapy

/-- A 3-dimensional state vector `(z[0], z[1], z[2])` of the Lorenz 63 system. -/
structure Vec3 where
  x : ℚ
  y : ℚ
  z : ℚ
deriving DecidableEq

/-- The all-zero state vector, `np.zeros(3)` in the source. -/
def Vec3.zero : Vec3 := ⟨0, 0, 0⟩

/-- Componentwise addition of state vectors. -/
def Vec3.add (a b : Vec3) : Vec3 := ⟨a.x + b.x, a.y + b.y, a.z + b.z⟩

/-- Componentwise subtraction of state vectors. -/
def Vec3.sub (a b : Vec3) : Vec3 := ⟨a.x - b.x, a.y - b.y, a.z - b.z⟩

/-- Scalar multiplication of a state vector. -/
def Vec3.smul (c : ℚ) (a : Vec3) : Vec3 := ⟨c * a.x, c * a.y, c * a.z⟩

/-- The state vector as a flat list (a numpy shape-`(3,)` array). -/
def Vec3.toList (a : Vec3) : List ℚ := [a.x, a.y, a.z]

/-- Absolute value on `ℚ`, written out so it evaluates by kernel reduction. -/
def qabs (a : ℚ) : ℚ := if a < 0 then -a else a

/-- Binary maximum on `ℚ`, written out so it evaluates by kernel reduction. -/
def qmax (a b : ℚ) : ℚ := if a ≤ b then b else a

/-- Max-norm of a state vector, used as the convergence metric of the
fixed-point iteration. -/
def maxNorm (a : Vec3) : ℚ := qmax (qabs a.x) (qmax (qabs a.y) (qabs a.z))

/-- The scalar model parameters of `Lorenz63Model.__init__`:
`sigma`, `rho`, `beta`, `dt`, `n_steps_per_update`, `tol`, `max_iters`,
`n_threads`.  `max_iters` is an integer as in Python (so that non-positive
values are representable). -/
structure Params where
  sigma : ℚ
  rho : ℚ
  beta : ℚ
  dt : ℚ
  n_steps_per_update : ℕ
  tol : ℚ
  max_iters : ℤ
  n_threads : ℕ
deriving DecidableEq

/-- The spec's validity invariant on parameters (spec section 3):
`dt > 0`, `tol > 0`, `max_iters > 0`, `n_steps_per_update > 0`. -/
def ValidParams (p : Params) : Prop :=
  0 < p.dt ∧ 0 < p.tol ∧ 0 < p.max_iters ∧ 0 < p.n_steps_per_update

instance (p : Params) : Decidable (ValidParams p) := by
  unfold ValidParams; infer_instance

/-- The Lorenz vector field from the class docstring of `Lorenz63Model`
(`src/dapy/models/lorenz63.py`, lines 20-24):

    dz[0]/dt = sigma * (z[1] - z[0]),
    dz[1]/dt = z[0] * (rho - z[2]) - z[1],
    dz[2]/dt = z[0] * z[1] - beta * z[2].
-/
def lorenzField (p : Params) (v : Vec3) : Vec3 :=
  ⟨p.sigma * (v.y - v.x), v.x * (p.rho - v.z) - v.y, v.x * v.y - p.beta * v.z⟩

/-- Error raised when fixed-point iteration fails to converge within
`max_iters` iterations; carries the residual (last iterate change). -/
structure ConvergenceError where
  residual : ℚ
deriving DecidableEq

/-- Modelled from the spec: one application of the implicit mid-point update
map (spec section 4.1, step 1): the candidate next state
`zn + dt * f((zn + w) / 2)` where `w` is the current estimate of the next
state.  The integrator source (`Lorenz63Integrator`) is not available. -/
def midpointMap (p : Params) (zn w : Vec3) : Vec3 :=
  Vec3.add zn (Vec3.smul p.dt (lorenzField p (Vec3.smul (1/2) (Vec3.add zn w))))

/-- Modelled from the spec: the fixed-point iteration loop of the implicit
mid-point solve (spec section 4.1, step 2).  `fuel` is the number of remaining
iterations; `w` the current estimate of the next state; `lastRes` the change
produced by the previous iteration (reported in the error).  Stops with the
new estimate when the max-norm change between successive iterates falls below
`tol`; errors once `max_iters` iterations are exhausted without convergence. -/
def fixedPointGo (p : Params) (zn : Vec3) :
    ℕ → Vec3 → ℚ → Except ConvergenceError Vec3
  | 0, _, lastRes => .error ⟨lastRes⟩
  | fuel + 1, w, _ =>
    let w2 := midpointMap p zn w
    let res := maxNorm (Vec3.sub w2 w)
    if res < p.tol then .ok w2 else fixedPointGo p zn fuel w2 res

/-- Modelled from the spec: a single implicit mid-point step from state `zn`
(spec section 4.1): the estimate is initialised to `zn` and refined by at most
`max_iters` fixed-point iterations. -/
def implicitMidpointStep (p : Params) (zn : Vec3) : Except ConvergenceError Vec3 :=
  fixedPointGo p zn p.max_iters.toNat zn 0

/-- Modelled from the spec: `n` consecutive implicit mid-point steps on one
ensemble member (spec section 4.1: repeat `n_steps_per_update` times). -/
def stepsN (p : Params) : ℕ → Vec3 → Except ConvergenceError Vec3
  | 0, z => .ok z
  | n + 1, z =>
    match implicitMidpointStep p z with
    | .error e => .error e
    | .ok z2 => stepsN p n z2

/-- Modelled from the spec: advance one ensemble member by
`n_steps_per_update` implicit mid-point steps. -/
def integrateMember (p : Params) (z : Vec3) : Except ConvergenceError Vec3 :=
  stepsN p p.n_steps_per_update z

/-- Modelled from the spec: `Lorenz63Integrator.integrate` on a whole ensemble
(spec section 4.1): each member is advanced independently, results keep the
input order, and a convergence failure of any member fails the batch as a
whole (the whole-batch failure policy documented in spec sections 4.1 and 9). -/
def integrate (p : Params) : List Vec3 → Except ConvergenceError (List Vec3)
  | [] => .ok []
  | z :: rest =>
    match integrateMember p z with
    | .error e => .error e
    | .ok z2 =>
      match integrate p rest with
      | .error e => .error e
      | .ok rest2 => .ok (z2 :: rest2)

/-- Modelled from the spec: execution of `integrate` over an explicit partition
of the ensemble into contiguous chunks, one chunk per worker thread (spec
sections 4.1 and 5; the parallel dispatch of `Lorenz63Integrator` is not
available in source).  Results are reassembled in input order. -/
def integrateChunks (p : Params) : List (List Vec3) → Except ConvergenceError (List Vec3)
  | [] => .ok []
  | c :: cs =>
    match integrate p c with
    | .error e => .error e
    | .ok xs =>
      match integrateChunks p cs with
      | .error e => .error e
      | .ok ys => .ok (xs ++ ys)

/-- Identifies which construction parameter failed validation. -/
inductive ConfigField where
  | dtField
  | tolField
  | maxItersField
deriving DecidableEq

/-- The exceptions that can escape `Lorenz63Model.__init__`: a
`ConfigurationError` from parameter validation, or an exception raised by the
user-supplied observation function during the construction-time probe,
propagated unchanged (exception payloads are represented by `ℕ` codes). -/
inductive ConstructionError where
  | configError : ConfigField → ConstructionError
  | obsFuncError : ℕ → ConstructionError
deriving DecidableEq

/-- The externally supplied random number generator (`rng` in the source): a
stateful stream of standard-normal variates, embedded as a value stream plus a
cursor position. -/
structure RngState where
  stream : ℕ → ℚ
  pos : ℕ

/-- Draw `k` variates from the generator, advancing its cursor. -/
def drawNormals (r : RngState) (k : ℕ) : List ℚ × RngState :=
  ((List.range k).map fun i => r.stream (r.pos + i), ⟨r.stream, r.pos + k⟩)

/-- The constructed `Lorenz63Model`: the attributes assigned in
`__init__` (source lines 80-89) together with the noise configuration passed
to the base class (lines 95-99).  Observation functions are fallible
(`Except ℕ`) to model Python functions that may raise. -/
structure Model where
  params : Params
  init_state_mean : ℚ
  init_state_std : ℚ
  state_noise_std : Option ℚ
  obser_noise_std : ℚ
  observation_func : Vec3 → Except ℕ (List ℚ)
  dim_x : ℕ

/-- Modelled from the spec: parameter validation at integrator construction.
The source of `Lorenz63Integrator` is not available; the spec (sections 3, 7
and 8) requires that constructing with `dt <= 0`, `tol <= 0` or
`max_iters <= 0` raises `ConfigurationError` eagerly, before any
integration. -/
def validateIntegratorConfig (p : Params) : Option ConfigField :=
  if p.dt ≤ 0 then some .dtField
  else if p.tol ≤ 0 then some .tolField
  else if p.max_iters ≤ 0 then some .maxItersField
  else none

/-- The default observation function of the source (line 44):
`observation_func=lambda z: z`, the identity on 3-vectors (as a shape-`(3,)`
array). -/
def defaultObservationFunc : Vec3 → Except ℕ (List ℚ) := fun z => .ok z.toList

/-- `Lorenz63Model.__init__` (source lines 43-99).  On success, returns the
constructed model together with the probe log: the list of inputs the
observation function was applied to during construction.  The order follows
the source: the observation-function probe on `np.zeros(3)` (line 89) runs
first and an exception it raises propagates out unchanged; the integrator is
constructed afterwards (lines 90-94, validation modelled from the spec). -/
def mkLorenz63Model (init_state_mean init_state_std : ℚ)
    (state_noise_std : Option ℚ)
    (observation_func : Vec3 → Except ℕ (List ℚ))
    (obser_noise_std : ℚ) (p : Params) :
    Except ConstructionError (Model × List Vec3) :=
  match observation_func Vec3.zero with
  | .error e => .error (.obsFuncError e)
  | .ok probeOut =>
    match validateIntegratorConfig p with
    | some fld => .error (.configError fld)
    | none =>
      .ok ({ params := p, init_state_mean := init_state_mean,
             init_state_std := init_state_std,
             state_noise_std := state_noise_std,
             obser_noise_std := obser_noise_std,
             observation_func := observation_func,
             dim_x := probeOut.length },
           [Vec3.zero])

/-- The failures `observe` can surface: the observation function raised, or it
returned a vector whose shape disagrees with the dimension probed at
construction (spec section 7, `ObservationFunctionError`). -/
inductive ObservationError where
  | funcRaised : ℕ → ObservationError
  | wrongShape : ℕ → ObservationError
deriving DecidableEq

/-- Modelled from the spec: observation of a single state (spec section 4.2):
apply the observation function, then add the scaled observation-noise draw
componentwise. -/
def observeMember (m : Model) (z : Vec3) (noise : List ℚ) :
    Except ObservationError (List ℚ) :=
  match m.observation_func z with
  | .error e => .error (.funcRaised e)
  | .ok y =>
    if y.length = m.dim_x then
      .ok (List.zipWith (fun a b => a + m.obser_noise_std * b) y noise)
    else .error (.wrongShape y.length)

/-- Modelled from the spec: `observe` on an ensemble (spec section 4.2):
applies the observation function to each state vector and adds one independent
diagonal-Gaussian observation-noise draw per member, drawn sequentially from
the single shared generator (spec section 5). -/
def observe (m : Model) : List Vec3 → RngState →
    Except ObservationError (List (List ℚ)) × RngState
  | [], r => (.ok [], r)
  | z :: rest, r =>
    match observeMember m z (drawNormals r m.dim_x).1 with
    | .error e => (.error e, (drawNormals r m.dim_x).2)
    | .ok y =>
      match (observe m rest (drawNormals r m.dim_x).2).1 with
      | .error e => (.error e, (observe m rest (drawNormals r m.dim_x).2).2)
      | .ok ys => (.ok (y :: ys), (observe m rest (drawNormals r m.dim_x).2).2)

/-- Add scaled diagonal-Gaussian perturbations to each state: member `i`
receives the `i`-th consecutive triple of variates scaled by `s`. -/
def addStateNoise (s : ℚ) : List Vec3 → List ℚ → List Vec3
  | z :: zs, a :: b :: c :: ns =>
    ⟨z.x + s * a, z.y + s * b, z.z + s * c⟩ :: addStateNoise s zs ns
  | _, _ => []

/-- Modelled from the spec: `advance` (spec section 4.2): integrate the
ensemble, then, only when the process-noise standard deviation is set and
non-zero, add one independent diagonal-Gaussian noise draw per member.
Convergence failures from the integrator are propagated unchanged. -/
def advance (m : Model) (states : List Vec3) (r : RngState) :
    Except ConvergenceError (List Vec3) × RngState :=
  match integrate m.params states with
  | .error e => (.error e, r)
  | .ok zs =>
    match m.state_noise_std with
    | none => (.ok zs, r)
    | some s =>
      if s = 0 then (.ok zs, r)
      else
        (.ok (addStateNoise s zs (drawNormals r (3 * zs.length)).1),
         (drawNormals r (3 * zs.length)).2)

/-- Build state vectors `mean + std * eps` from a flat list of variates, three
variates per member. -/
def gaussStates (mean std : ℚ) : List ℚ → List Vec3
  | a :: b :: c :: ns =>
    ⟨mean + std * a, mean + std * b, mean + std * c⟩ :: gaussStates mean std ns
  | _ => []

/-- Modelled from the spec: `sample_initial_ensemble(n)` (spec section 4.2):
draw `n` independent state vectors from the diagonal Gaussian initial
distribution with the configured mean and standard deviation. -/
def sample_initial_ensemble (m : Model) (n : ℕ) (r : RngState) :
    List Vec3 × RngState :=
  (gaussStates m.init_state_mean m.init_state_std (drawNormals r (3 * n)).1,
   (drawNormals r (3 * n)).2)

/-- The full mutable state of a model instance: the constructed model plus the
generator, the only genuinely mutable collaborator (spec section 5). -/
structure ModelState where
  model : Model
  rng : RngState

/-- `sample_initial_ensemble` as an operation on the full instance state. -/
def sampleInitialEnsembleS (s : ModelState) (n : ℕ) : List Vec3 × ModelState :=
  ((sample_initial_ensemble s.model n s.rng).1,
   ⟨s.model, (sample_initial_ensemble s.model n s.rng).2⟩)

/-- `advance` as an operation on the full instance state. -/
def advanceS (s : ModelState) (states : List Vec3) :
    Except ConvergenceError (List Vec3) × ModelState :=
  ((advance s.model states s.rng).1, ⟨s.model, (advance s.model states s.rng).2⟩)

/-- `observe` as an operation on the full instance state. -/
def observeS (s : ModelState) (states : List Vec3) :
    Except ObservationError (List (List ℚ)) × ModelState :=
  ((observe s.model states s.rng).1, ⟨s.model, (observe s.model states s.rng).2⟩)

/-- A valid parameter set used in concrete instantiations. -/
def wParams : Params :=
  { sigma := 10, rho := 28, beta := 8/3, dt := 1/100, n_steps_per_update := 2,
    tol := 1/100000000, max_iters := 1, n_threads := 4 }

/-- A parameter set whose fixed-point iteration diverges: a large `dt` with a
tight tolerance and `max_iters = 1` (the spec's convergence-failure
scenario). -/
def wDivergentParams : Params :=
  { sigma := 10, rho := 28, beta := 8/3, dt := 10, n_steps_per_update := 1,
    tol := 1/100000000, max_iters := 1, n_threads := 4 }

/-- An invalid parameter set: `dt = 0`. -/
def wBadDtParams : Params := { wParams with dt := 0 }

/-- An observation function keeping only the first state coordinate
(the spec's dimension-halving example). -/
def firstCoordFunc : Vec3 → Except ℕ (List ℚ) := fun z => .ok [z.x]

/-- An observation function that raises (exception code 7) on every input. -/
def failingObsFunc : Vec3 → Except ℕ (List ℚ) := fun _ => .error 7

/-- A concrete generator state. -/
def wRng : RngState := ⟨fun i => (i : ℚ) + 1, 0⟩

/-- A second generator state with a different stream and cursor. -/
def wRng2 : RngState := ⟨fun i => 2 * (i : ℚ) + 5, 3⟩

/-- The model obtained from construction with the dimension-halving
observation function. -/
def wModelFirstCoord : Model :=
  { params := wParams, init_state_mean := 1, init_state_std := 1/20,
    state_noise_std := none, obser_noise_std := 5,
    observation_func := firstCoordFunc, dim_x := 1 }

/-- The model obtained from construction with the default (identity)
observation function and no process noise. -/
def wModelDefaultObs : Model :=
  { params := wParams, init_state_mean := 1, init_state_std := 1/20,
    state_noise_std := none, obser_noise_std := 5,
    observation_func := defaultObservationFunc, dim_x := 3 }

end Dapy

namespace Dapy

theorem integrate_ok_pointwise (p : Params) :
    ∀ (ens out : List Vec3), integrate p ens = .ok out →
      out.length = ens.length ∧
      ∀ i (hi : i < ens.length) (ho : i < out.length),
        integrateMember p (ens.get ⟨i, hi⟩) = .ok (out.get ⟨i, ho⟩) := by
  intro ens
  induction ens with
  | nil =>
    intro out h
    simp only [integrate] at h
    injection h with h
    subst h
    exact ⟨rfl, fun i hi => absurd hi (by simp)⟩
  | cons z rest ih =>
    intro out h
    unfold integrate at h
    cases hz : integrateMember p z with
    | error e => rw [hz] at h; cases h
    | ok z2 =>
      rw [hz] at h
      cases hr : integrate p rest with
      | error e => rw [hr] at h; cases h
      | ok rest2 =>
        rw [hr] at h
        injection h with h
        subst h
        obtain ⟨hlen, hpt⟩ := ih rest2 hr
        refine ⟨by simp [hlen], ?_⟩
        intro i hi ho
        cases i with
        | zero => simpa using hz
        | succ j =>
          simpa using hpt j (by simpa using hi) (by simpa using ho)

/-- C1: for every valid parameter set and every non-empty ensemble, a
successful `integrate` returns exactly as many state vectors as it was given,
and the output at index `i` is the advanced state of the input at index `i`. -/
theorem C1_integrate_length_and_order (p : Params) (ens out : List Vec3)
    (_hp : ValidParams p) (_hne : 0 < ens.length)
    (h : integrate p ens = .ok out) :
    out.length = ens.length ∧
    ∀ i (hi : i < ens.length) (ho : i < out.length),
      integrateMember p (ens.get ⟨i, hi⟩) = .ok (out.get ⟨i, ho⟩) :=
  integrate_ok_pointwise p ens out h

theorem C1_witness :
    ValidParams wParams ∧ integrate wParams [Vec3.zero] = .ok [Vec3.zero] ∧
    ([Vec3.zero] : List Vec3).length = ([Vec3.zero] : List Vec3).length ∧
    integrateMember wParams Vec3.zero = .ok Vec3.zero := by
  have hv : ValidParams wParams := by norm_num [ValidParams, wParams]
  have hok : integrate wParams [Vec3.zero] = .ok [Vec3.zero] := by
    norm_num [integrate, integrateMember, stepsN, implicitMidpointStep, fixedPointGo,
      midpointMap, lorenzField, Vec3.add, Vec3.sub, Vec3.smul, Vec3.zero, maxNorm,
      qmax, qabs, wParams]
  have h := C1_integrate_length_and_order wParams [Vec3.zero] [Vec3.zero] hv
    (by simp) hok
  exact ⟨hv, hok, h.1, by simpa using h.2 0 (by simp) (by simp)⟩

end Dapy

namespace Dapy

/-- C2: if any ensemble member's fixed-point iteration fails to converge, the
batch `integrate` call surfaces a `ConvergenceError` and never returns an
un-converged state for that member. -/
theorem C2_convergence_failure_surfaced (p : Params) (ens : List Vec3)
    (h : ∃ z ∈ ens, ∃ e, integrateMember p z = .error e) :
    (∃ e2, integrate p ens = .error e2) ∧ ∀ out, integrate p ens ≠ .ok out := by
  have main : ∃ e2, integrate p ens = .error e2 := by
    induction ens with
    | nil => simp at h
    | cons z rest ih =>
      obtain ⟨w, hw, e, he⟩ := h
      unfold integrate
      cases hz : integrateMember p z with
      | error e2 => exact ⟨e2, rfl⟩
      | ok z2 =>
        rcases List.mem_cons.mp hw with rfl | hwr
        · rw [hz] at he; cases he
        · obtain ⟨e2, h2⟩ := ih ⟨w, hwr, e, he⟩
          rw [h2]
          exact ⟨e2, rfl⟩
  refine ⟨main, fun out hok => ?_⟩
  obtain ⟨e2, h2⟩ := main
  rw [h2] at hok
  cases hok

theorem C2_witness :
    (∃ e, integrateMember wDivergentParams ⟨1, 1, 1⟩ = .error e) ∧
    (∃ e2, integrate wDivergentParams [⟨1, 1, 1⟩] = .error e2) ∧
    ∀ out, integrate wDivergentParams [⟨1, 1, 1⟩] ≠ .ok out := by
  have hmem : integrateMember wDivergentParams ⟨1, 1, 1⟩ = .error ⟨260⟩ := by
    norm_num [integrateMember, stepsN, implicitMidpointStep, fixedPointGo,
      midpointMap, lorenzField, Vec3.add, Vec3.sub, Vec3.smul, maxNorm,
      qmax, qabs, wDivergentParams]
  have h := C2_convergence_failure_surfaced wDivergentParams [⟨1, 1, 1⟩]
    ⟨⟨1, 1, 1⟩, by simp, ⟨260⟩, hmem⟩
  exact ⟨⟨⟨260⟩, hmem⟩, h.1, h.2⟩

end Dapy

namespace Dapy

theorem lorenzField_zero (p : Params) : lorenzField p Vec3.zero = Vec3.zero := by
  simp [lorenzField, Vec3.zero]

theorem midpointMap_zero (p : Params) :
    midpointMap p Vec3.zero Vec3.zero = Vec3.zero := by
  simp [midpointMap, Vec3.add, Vec3.smul, lorenzField, Vec3.zero]

theorem Vec3_sub_self (a : Vec3) : Vec3.sub a a = Vec3.zero := by
  simp [Vec3.sub, Vec3.zero]

theorem maxNorm_zero : maxNorm Vec3.zero = 0 := by
  simp [maxNorm, Vec3.zero, qabs, qmax]

theorem implicitMidpointStep_zero (p : Params) (hi : 0 < p.max_iters)
    (ht : 0 < p.tol) : implicitMidpointStep p Vec3.zero = .ok Vec3.zero := by
  obtain ⟨k, hk⟩ : ∃ k, p.max_iters.toNat = k + 1 := ⟨p.max_iters.toNat - 1, by omega⟩
  rw [implicitMidpointStep, hk, fixedPointGo]
  simp only [midpointMap_zero, Vec3_sub_self, maxNorm_zero]
  simp [ht]

theorem stepsN_zero (p : Params) (hi : 0 < p.max_iters) (ht : 0 < p.tol) :
    ∀ n, stepsN p n Vec3.zero = .ok Vec3.zero := by
  intro n
  induction n with
  | zero => rfl
  | succ k ih => rw [stepsN, implicitMidpointStep_zero p hi ht]; exact ih

/-- C4: the origin is a fixed point of the Lorenz vector field, and
`integrate` on an all-zero ensemble returns an all-zero ensemble; with zero or
absent process noise `advance` does the same. -/
theorem C4_origin_fixed_point (p : Params) (n : ℕ) (hp : ValidParams p) :
    lorenzField p Vec3.zero = Vec3.zero ∧
    integrate p (List.replicate n Vec3.zero) = .ok (List.replicate n Vec3.zero) ∧
    ∀ (m : Model) (r : RngState), m.params = p →
      (m.state_noise_std = none ∨ m.state_noise_std = some 0) →
      (advance m (List.replicate n Vec3.zero) r).1 =
        .ok (List.replicate n Vec3.zero) := by
  obtain ⟨hdt, ht, hi, hs⟩ := hp
  have hint : integrate p (List.replicate n Vec3.zero) =
      .ok (List.replicate n Vec3.zero) := by
    induction n with
    | zero => rfl
    | succ k ih =>
      rw [List.replicate_succ, integrate]
      rw [show integrateMember p Vec3.zero = .ok Vec3.zero from stepsN_zero p hi ht _]
      rw [ih]
  refine ⟨lorenzField_zero p, hint, ?_⟩
  intro m r hm hnoise
  rw [advance, hm, hint]
  rcases hnoise with h | h <;> simp [h]

theorem C4_witness :
    ValidParams wParams ∧
    integrate wParams (List.replicate 2 Vec3.zero) =
      .ok (List.replicate 2 Vec3.zero) ∧
    (advance wModelDefaultObs (List.replicate 2 Vec3.zero) wRng).1 =
      .ok (List.replicate 2 Vec3.zero) := by
  have hv : ValidParams wParams := by norm_num [ValidParams, wParams]
  have h := C4_origin_fixed_point wParams 2 hv
  exact ⟨hv, h.2.1, h.2.2 wModelDefaultObs wRng rfl (Or.inl rfl)⟩

end Dapy

namespace Dapy

/-- C5: with process noise unset or zero, `advance` is deterministic: its
output does not depend on the generator state, so repeated calls on the same
input produce identical output. -/
theorem C5_advance_deterministic (m : Model) (states : List Vec3)
    (h : m.state_noise_std = none ∨ m.state_noise_std = some 0)
    (r1 r2 : RngState) :
    (advance m states r1).1 = (advance m states r2).1 := by
  rw [advance, advance]
  cases hint : integrate m.params states with
  | error e => rfl
  | ok zs => rcases h with h | h <;> simp [h]

theorem C5_witness :
    wModelDefaultObs.state_noise_std = none ∧
    (advance wModelDefaultObs [Vec3.zero] wRng).1 =
      (advance wModelDefaultObs [Vec3.zero] wRng2).1 :=
  ⟨rfl, C5_advance_deterministic wModelDefaultObs [Vec3.zero] (Or.inl rfl) wRng wRng2⟩

theorem integrate_append (p : Params) :
    ∀ a b : List Vec3, integrate p (a ++ b) =
      match integrate p a with
      | .error e => .error e
      | .ok xs =>
        match integrate p b with
        | .error e => .error e
        | .ok ys => .ok (xs ++ ys) := by
  intro a b
  induction a with
  | nil =>
    simp only [List.nil_append, integrate]
    cases integrate p b <;> rfl
  | cons z rest ih =>
    show integrate p (z :: (rest ++ b)) = _
    simp only [integrate]
    rw [ih]
    cases integrateMember p z with
    | error e => rfl
    | ok z2 =>
      cases integrate p rest with
      | error e => rfl
      | ok xs => cases integrate p b <;> rfl

theorem integrateChunks_eq_integrate (p : Params) :
    ∀ chunks : List (List Vec3),
      integrateChunks p chunks = integrate p chunks.flatten := by
  intro chunks
  induction chunks with
  | nil => rfl
  | cons c cs ih =>
    rw [integrateChunks, List.flatten_cons, integrate_append, ih]

/-- C6: the result of `integrate` depends only on the ensemble, not on how it
is partitioned into per-thread chunks: any two partitions of the same
ensemble (in particular, partitions induced by different thread counts) give
identical results. -/
theorem C6_integrate_partition_independent (p : Params)
    (chunks1 chunks2 : List (List Vec3)) (h : chunks1.flatten = chunks2.flatten) :
    integrateChunks p chunks1 = integrateChunks p chunks2 := by
  rw [integrateChunks_eq_integrate, integrateChunks_eq_integrate, h]

theorem C6_witness :
    ([[Vec3.zero], [Vec3.zero]] : List (List Vec3)).flatten =
      ([[Vec3.zero, Vec3.zero]] : List (List Vec3)).flatten ∧
    integrateChunks wParams [[Vec3.zero], [Vec3.zero]] =
      integrateChunks wParams [[Vec3.zero, Vec3.zero]] := by
  have hj : ([[Vec3.zero], [Vec3.zero]] : List (List Vec3)).flatten =
      ([[Vec3.zero, Vec3.zero]] : List (List Vec3)).flatten := by simp
  exact ⟨hj, C6_integrate_partition_independent wParams _ _ hj⟩

end Dapy

namespace Dapy

theorem mkLorenz63Model_ok_inv (imean istd : ℚ) (snoise : Option ℚ)
    (f : Vec3 → Except ℕ (List ℚ)) (onoise : ℚ) (p : Params)
    (m : Model) (lg : List Vec3)
    (hmk : mkLorenz63Model imean istd snoise f onoise p = .ok (m, lg)) :
    lg = [Vec3.zero] ∧
    ∃ v, f Vec3.zero = .ok v ∧ validateIntegratorConfig p = none ∧
      m = { params := p, init_state_mean := imean, init_state_std := istd,
            state_noise_std := snoise, obser_noise_std := onoise,
            observation_func := f, dim_x := v.length } := by
  unfold mkLorenz63Model at hmk
  cases hf : f Vec3.zero with
  | error e => rw [hf] at hmk; cases hmk
  | ok v =>
    rw [hf] at hmk
    cases hv : validateIntegratorConfig p with
    | some fld => rw [hv] at hmk; cases hmk
    | none =>
      rw [hv] at hmk
      injection hmk with hmk
      injection hmk with h1 h2
      exact ⟨h2.symm, v, rfl, rfl, h1.symm⟩

theorem drawNormals_fst_length (r : RngState) (k : ℕ) :
    (drawNormals r k).1.length = k := by
  simp [drawNormals]

theorem observeMember_ok_length (m : Model) (z : Vec3) (ns : List ℚ)
    (y : List ℚ) (hns : ns.length = m.dim_x)
    (h : observeMember m z ns = .ok y) : y.length = m.dim_x := by
  unfold observeMember at h
  cases hf : m.observation_func z with
  | error e => rw [hf] at h; cases h
  | ok v =>
    rw [hf] at h
    dsimp only at h
    by_cases hl : v.length = m.dim_x
    · rw [if_pos hl] at h
      injection h with h
      rw [← h, List.length_zipWith, hl, hns, min_self]
    · rw [if_neg hl] at h; cases h

theorem observe_ok_row_length (m : Model) :
    ∀ (states : List Vec3) (r : RngState) (out : List (List ℚ)) (r2 : RngState),
      observe m states r = (.ok out, r2) → ∀ y ∈ out, y.length = m.dim_x := by
  intro states
  induction states with
  | nil =>
    intro r out r2 h y hy
    rw [observe] at h
    injection h with h1 h2
    injection h1 with h1
    rw [← h1] at hy
    cases hy
  | cons z rest ih =>
    intro r out r2 h y hy
    rw [observe] at h
    cases hob : observeMember m z (drawNormals r m.dim_x).1 with
    | error e => rw [hob] at h; injection h with h1 h2; cases h1
    | ok yrow =>
      rw [hob] at h
      cases hrest : (observe m rest (drawNormals r m.dim_x).2).1 with
      | error e => rw [hrest] at h; injection h with h1 h2; cases h1
      | ok ys =>
        rw [hrest] at h
        injection h with h1 h2
        injection h1 with h1
        rw [← h1] at hy
        rcases List.mem_cons.mp hy with rfl | hmem
        · exact observeMember_ok_length m z _ y (drawNormals_fst_length r m.dim_x) hob
        · refine ih (drawNormals r m.dim_x).2 ys
            (observe m rest (drawNormals r m.dim_x).2).2 ?_ y hmem
          have hpair : observe m rest (drawNormals r m.dim_x).2 =
              ((observe m rest (drawNormals r m.dim_x).2).1,
               (observe m rest (drawNormals r m.dim_x).2).2) := rfl
          rw [hpair, hrest]

/-- C3: construction probes the observation function exactly once, on the
all-zero 3-vector, to fix the observation dimension; thereafter every
successful `observe` output row has exactly that dimension. -/
theorem C3_probe_once_observe_dim (imean istd : ℚ) (snoise : Option ℚ)
    (f : Vec3 → Except ℕ (List ℚ)) (onoise : ℚ) (p : Params)
    (m : Model) (lg : List Vec3)
    (hmk : mkLorenz63Model imean istd snoise f onoise p = .ok (m, lg)) :
    lg = [Vec3.zero] ∧ lg.length = 1 ∧
    (∀ v, f Vec3.zero = .ok v → m.dim_x = v.length) ∧
    ∀ (states : List Vec3) (r : RngState) (out : List (List ℚ)) (r2 : RngState),
      observe m states r = (.ok out, r2) → ∀ y ∈ out, y.length = m.dim_x := by
  obtain ⟨hlg, v, hf, hval, hm⟩ := mkLorenz63Model_ok_inv _ _ _ _ _ _ _ _ hmk
  refine ⟨hlg, by rw [hlg]; rfl, ?_, observe_ok_row_length m⟩
  intro v2 hf2
  rw [hf] at hf2
  injection hf2 with hv2
  rw [hm, hv2]

theorem C3_witness :
    mkLorenz63Model 1 (1/20) none firstCoordFunc 5 wParams =
      .ok (wModelFirstCoord, [Vec3.zero]) ∧
    wModelFirstCoord.dim_x = 1 ∧
    (observe wModelFirstCoord [⟨2, 3, 4⟩] wRng).1 = .ok [[7]] ∧
    ∀ y ∈ [[(7 : ℚ)]], y.length = wModelFirstCoord.dim_x := by
  have hmk : mkLorenz63Model 1 (1/20) none firstCoordFunc 5 wParams =
      .ok (wModelFirstCoord, [Vec3.zero]) := by
    norm_num [mkLorenz63Model, firstCoordFunc, validateIntegratorConfig,
      wParams, wModelFirstCoord]
  have hobs : observe wModelFirstCoord [⟨2, 3, 4⟩] wRng =
      (.ok [[7]], ⟨wRng.stream, 1⟩) := by
    norm_num [observe, observeMember, drawNormals, firstCoordFunc,
      wModelFirstCoord, wRng, List.range_succ]
  have h := C3_probe_once_observe_dim 1 (1/20) none firstCoordFunc 5 wParams
    wModelFirstCoord [Vec3.zero] hmk
  refine ⟨hmk, ?_, ?_, ?_⟩
  · have := h.2.2.1 [(0 : ℚ)] (by norm_num [firstCoordFunc, Vec3.zero])
    simpa using this
  · have hpair : observe wModelFirstCoord [⟨2, 3, 4⟩] wRng =
        ((observe wModelFirstCoord [⟨2, 3, 4⟩] wRng).1,
         (observe wModelFirstCoord [⟨2, 3, 4⟩] wRng).2) := rfl
    rw [hobs]
  · intro y hy
    have hout := h.2.2.2 [⟨2, 3, 4⟩] wRng [[7]] ⟨wRng.stream, 1⟩ hobs
    exact hout y hy

end Dapy

namespace Dapy

theorem validate_none_pos (p : Params)
    (h : validateIntegratorConfig p = none) :
    0 < p.dt ∧ 0 < p.tol ∧ 0 < p.max_iters := by
  unfold validateIntegratorConfig at h
  split_ifs at h with h1 h2 h3
  exact ⟨lt_of_not_le h1, lt_of_not_le h2, by omega⟩

/-- C7: constructing with `dt <= 0`, `tol <= 0` or `max_iters <= 0` fails with
a ConfigurationError (and hence no model is built, so no integration can be
attempted), provided the observation-function probe itself succeeds. -/
theorem C7_config_validation (imean istd : ℚ) (snoise : Option ℚ)
    (f : Vec3 → Except ℕ (List ℚ)) (onoise : ℚ) (p : Params) (v : List ℚ)
    (hobs : f Vec3.zero = .ok v)
    (hbad : p.dt ≤ 0 ∨ p.tol ≤ 0 ∨ p.max_iters ≤ 0) :
    (∃ fld, mkLorenz63Model imean istd snoise f onoise p =
      .error (.configError fld)) ∧
    ∀ res, mkLorenz63Model imean istd snoise f onoise p ≠ .ok res := by
  cases hv : validateIntegratorConfig p with
  | none =>
    obtain ⟨g1, g2, g3⟩ := validate_none_pos p hv
    rcases hbad with h | h | h
    · exact absurd g1 (by linarith)
    · exact absurd g2 (by linarith)
    · exact absurd g3 (by omega)
  | some fld =>
    have hmk : mkLorenz63Model imean istd snoise f onoise p =
        .error (.configError fld) := by
      unfold mkLorenz63Model
      rw [hobs, hv]
    exact ⟨⟨fld, hmk⟩, fun res hok => by rw [hmk] at hok; cases hok⟩

theorem C7_witness :
    defaultObservationFunc Vec3.zero = .ok [0, 0, 0] ∧
    wBadDtParams.dt ≤ 0 ∧
    ∃ fld, mkLorenz63Model 1 (1/20) none defaultObservationFunc 5 wBadDtParams =
      .error (.configError fld) := by
  have hobs : defaultObservationFunc Vec3.zero = .ok [0, 0, 0] := rfl
  have hdt : wBadDtParams.dt ≤ 0 := by norm_num [wBadDtParams, wParams]
  have h := C7_config_validation 1 (1/20) none defaultObservationFunc 5
    wBadDtParams [0, 0, 0] hobs (Or.inl hdt)
  exact ⟨hobs, hdt, h.1⟩

/-- C8 as stated is false on the code: the constructor does not convert an
observation-function exception into a ConfigurationError.  At the concrete
input below (well-formed parameters, an observation function raising
exception code 7 on the zero probe), `Lorenz63Model.__init__` fails with the
propagated exception, not a ConfigurationError. -/
theorem C8_counterexample :
    mkLorenz63Model 1 (1/20) none failingObsFunc 5 wParams =
      .error (.obsFuncError 7) ∧
    ∀ fld, mkLorenz63Model 1 (1/20) none failingObsFunc 5 wParams ≠
      .error (.configError fld) := by
  have h : mkLorenz63Model 1 (1/20) none failingObsFunc 5 wParams =
      .error (.obsFuncError 7) := rfl
  exact ⟨h, fun fld hc => by rw [h] at hc; injection hc with hc; cases hc⟩

/-- C8 amended: if the observation function raises on the all-zero probe, the
constructor fails by propagating that exception unchanged (so no model is
constructed and no integration ever occurs for that instance); it is not
converted into a ConfigurationError. -/
theorem C8_amended_obs_error_propagates (imean istd : ℚ) (snoise : Option ℚ)
    (f : Vec3 → Except ℕ (List ℚ)) (onoise : ℚ) (p : Params) (e : ℕ)
    (h : f Vec3.zero = .error e) :
    mkLorenz63Model imean istd snoise f onoise p = .error (.obsFuncError e) ∧
    (∀ fld, mkLorenz63Model imean istd snoise f onoise p ≠
      .error (.configError fld)) ∧
    ∀ res, mkLorenz63Model imean istd snoise f onoise p ≠ .ok res := by
  have hmk : mkLorenz63Model imean istd snoise f onoise p =
      .error (.obsFuncError e) := by
    unfold mkLorenz63Model
    rw [h]
  refine ⟨hmk, fun fld hc => ?_, fun res hok => ?_⟩
  · rw [hmk] at hc; injection hc with hc; cases hc
  · rw [hmk] at hok; cases hok

theorem C8_amended_witness :
    failingObsFunc Vec3.zero = .error 7 ∧
    mkLorenz63Model 1 (1/20) none failingObsFunc 5 wParams =
      .error (.obsFuncError 7) := by
  have hf : failingObsFunc Vec3.zero = .error 7 := rfl
  exact ⟨hf, (C8_amended_obs_error_propagates 1 (1/20) none failingObsFunc 5
    wParams 7 hf).1⟩

end Dapy

namespace Dapy

/-- C9: the parameters and noise specifications are stored at construction
exactly as supplied, and every subsequent operation
(`sample_initial_ensemble`, `advance`, `observe`) leaves the model - its
parameters, noise specifications and observation function - unchanged; only
the generator state evolves. -/
theorem C9_params_immutable (imean istd : ℚ) (snoise : Option ℚ)
    (f : Vec3 → Except ℕ (List ℚ)) (onoise : ℚ) (p : Params)
    (m : Model) (lg : List Vec3)
    (hmk : mkLorenz63Model imean istd snoise f onoise p = .ok (m, lg)) :
    m.params = p ∧ m.init_state_mean = imean ∧ m.init_state_std = istd ∧
    m.state_noise_std = snoise ∧ m.obser_noise_std = onoise ∧
    ∀ (r : RngState) (n : ℕ) (zs ws : List Vec3),
      (sampleInitialEnsembleS ⟨m, r⟩ n).2.model = m ∧
      (advanceS ⟨m, r⟩ zs).2.model = m ∧
      (observeS ⟨m, r⟩ ws).2.model = m := by
  obtain ⟨hlg, v, hf, hval, hm⟩ := mkLorenz63Model_ok_inv _ _ _ _ _ _ _ _ hmk
  subst hm
  exact ⟨rfl, rfl, rfl, rfl, rfl, fun r n zs ws => ⟨rfl, rfl, rfl⟩⟩

theorem C9_witness :
    mkLorenz63Model 1 (1/20) none firstCoordFunc 5 wParams =
      .ok (wModelFirstCoord, [Vec3.zero]) ∧
    wModelFirstCoord.params = wParams ∧
    (sampleInitialEnsembleS ⟨wModelFirstCoord, wRng⟩ 2).2.model =
      wModelFirstCoord ∧
    (advanceS ⟨wModelFirstCoord, wRng⟩ [Vec3.zero]).2.model =
      wModelFirstCoord ∧
    (observeS ⟨wModelFirstCoord, wRng⟩ [Vec3.zero]).2.model =
      wModelFirstCoord := by
  have hmk : mkLorenz63Model 1 (1/20) none firstCoordFunc 5 wParams =
      .ok (wModelFirstCoord, [Vec3.zero]) := by
    norm_num [mkLorenz63Model, firstCoordFunc, validateIntegratorConfig,
      wParams, wModelFirstCoord]
  have h := C9_params_immutable 1 (1/20) none firstCoordFunc 5 wParams
    wModelFirstCoord [Vec3.zero] hmk
  obtain ⟨hp2, _, _, _, _, hops⟩ := h
  obtain ⟨h1, h2, h3⟩ := hops wRng 2 [Vec3.zero] [Vec3.zero]
  exact ⟨hmk, hp2, h1, h2, h3⟩

/-- C10: when no observation function is supplied, the default is the
identity on 3-vectors: the probed observation dimension is 3 and `observe`
returns each state itself plus the scaled observation-noise draw. -/
theorem C10_default_obs_identity (imean istd : ℚ) (snoise : Option ℚ)
    (onoise : ℚ) (p : Params) (m : Model) (lg : List Vec3)
    (hmk : mkLorenz63Model imean istd snoise defaultObservationFunc onoise p =
      .ok (m, lg)) :
    m.dim_x = 3 ∧
    ∀ (z : Vec3) (r : RngState),
      (observe m [z] r).1 =
        .ok [[z.x + m.obser_noise_std * r.stream r.pos,
              z.y + m.obser_noise_std * r.stream (r.pos + 1),
              z.z + m.obser_noise_std * r.stream (r.pos + 2)]] := by
  obtain ⟨hlg, v, hf, hval, hm⟩ := mkLorenz63Model_ok_inv _ _ _ _ _ _ _ _ hmk
  have hv : v = [0, 0, 0] := by
    have : defaultObservationFunc Vec3.zero = .ok [0, 0, 0] := rfl
    rw [this] at hf
    injection hf with hf
    exact hf.symm
  subst hv
  subst hm
  refine ⟨rfl, ?_⟩
  intro z r
  simp only [show ([0, 0, 0] : List ℚ).length = 3 from rfl]
  have hdraw : (drawNormals r 3).1 = [r.stream r.pos, r.stream (r.pos + 1),
      r.stream (r.pos + 2)] := by
    simp [drawNormals, List.range_succ]
  rw [observe]
  have hob : observeMember
      { params := p, init_state_mean := imean, init_state_std := istd,
        state_noise_std := snoise, obser_noise_std := onoise,
        observation_func := defaultObservationFunc, dim_x := 3 }
      z (drawNormals r 3).1 =
      .ok [z.x + onoise * r.stream r.pos, z.y + onoise * r.stream (r.pos + 1),
           z.z + onoise * r.stream (r.pos + 2)] := by
    rw [hdraw]
    simp [observeMember, defaultObservationFunc, Vec3.toList]
  rw [hob]
  rw [show (observe
      { params := p, init_state_mean := imean, init_state_std := istd,
        state_noise_std := snoise, obser_noise_std := onoise,
        observation_func := defaultObservationFunc, dim_x := 3 }
      [] (drawNormals r 3).2).1 = .ok [] from rfl]

theorem C10_witness :
    mkLorenz63Model 1 (1/20) none defaultObservationFunc 5 wParams =
      .ok (wModelDefaultObs, [Vec3.zero]) ∧
    wModelDefaultObs.dim_x = 3 ∧
    (observe wModelDefaultObs [⟨2, 3, 4⟩] wRng).1 = .ok [[7, 13, 19]] := by
  have hmk : mkLorenz63Model 1 (1/20) none defaultObservationFunc 5 wParams =
      .ok (wModelDefaultObs, [Vec3.zero]) := by
    norm_num [mkLorenz63Model, defaultObservationFunc, Vec3.toList, Vec3.zero,
      validateIntegratorConfig, wParams, wModelDefaultObs]
  have h := C10_default_obs_identity 1 (1/20) none 5 wParams
    wModelDefaultObs [Vec3.zero] hmk
  refine ⟨hmk, h.1, ?_⟩
  have h2 := h.2 ⟨2, 3, 4⟩ wRng
  rw [h2]
  norm_num [wModelDefaultObs, wRng]

end Dapy
